import Mathlib

/-!
Verification of the Monte Carlo integration notebook
(ejercicios/10/integral_MC.ipynb).

The notebook contains two examples. Each defines an integrand f, a
closed-form reference integral_analitica, a Monte Carlo estimator
integral_monte_carlo, and a convergence sweep that records the relative
error of the estimate for a logarithmically spaced sequence of sample
counts (puntos, diferencias).

Modelling conventions:
* numpy's random draws are modelled by an explicit entropy stream
  u : ℕ → ℝ; the i-th draw of a call is u i.  Uniform(0,1) draws are the
  stream values themselves; Exponential(1) draws are obtained by the
  inverse-CDF transform of the stream values.
* numpy raises ValueError when a negative array size is requested
  (np.random.random(N) / np.random.exponential(size=N) with N < 0), so
  the sampling step returns Except PyError.  A size of 0 is accepted by
  numpy and yields an empty array.
* Machine floats are modelled by real numbers; real division by zero is
  total in Lean (x / 0 = 0), where IEEE arithmetic would give NaN/inf.
  The spots where this matters are flagged in the theorems.
* np.int_ applied to a float truncates toward zero (C cast), modelled by
  np_int below.
-/

noncomputable section

/-- Error conditions raised by the numpy calls the notebook makes. -/
inductive PyError
  | valueError : PyError
deriving DecidableEq

/-- np.logspace lo hi T, element k: 10 raised to the k-th of T evenly
spaced exponents between lo and hi inclusive (numpy computes
10 ** linspace lo hi T). -/
def np_logspace (lo hi : ℝ) (T : ℕ) (k : ℕ) : ℝ :=
  (10 : ℝ) ^ (lo + (hi - lo) * (k : ℝ) / ((T : ℝ) - 1))

/-- np.int_ on a float: truncation toward zero (floor for nonnegative
values, ceiling for negative ones). -/
def np_int (x : ℝ) : ℤ :=
  if 0 ≤ x then ⌊x⌋ else ⌈x⌉

/-- n_intentos = 10 : the number of trials of the convergence sweep
(identical in both notebook cells). -/
def n_intentos : ℕ := 10

/-- puntos = np.int_(np.logspace(1,5,n_intentos)) : the sweep's sample
counts (identical in both notebook cells). -/
def puntos : List ℤ :=
  (List.range n_intentos).map (fun k => np_int (np_logspace 1 5 n_intentos k))

/-- The relative-error expression recorded by the sweep loop:
np.abs((a-b)/a), with reference a and estimate b.  The division is
unguarded in the source. -/
def relative_error (a b : ℝ) : ℝ := |(a - b) / a|

namespace UniformExample

/-- First example's integrand: f(x) = np.exp(x). -/
def f (x : ℝ) : ℝ := Real.exp x

/-- First example's closed form: np.exp(1) - 1. -/
def integral_analitica : ℝ := Real.exp 1 - 1

/-- The list of N draws taken from the entropy stream u; for
np.random.random(N) the draws are the stream values themselves
(ideal Uniform(0,1) variates). -/
def samples (u : ℕ → ℝ) (N : ℤ) : List ℝ :=
  (List.range N.toNat).map u

/-- np.random.random(N): raises ValueError for N < 0, otherwise returns
an array of N uniform draws (empty for N = 0). -/
def random_random (u : ℕ → ℝ) (N : ℤ) : Except PyError (List ℝ) :=
  if N < 0 then Except.error PyError.valueError
  else Except.ok (samples u N)

/-- integral_monte_carlo(N): x = np.random.random(N);
return np.sum(f(x))/N. -/
def integral_monte_carlo (u : ℕ → ℝ) (N : ℤ) : Except PyError ℝ :=
  (random_random u N).map (fun x => ((x.map f).sum) / (N : ℝ))

/-- integral_monte_carlo() with the declared default N=100. -/
def integral_monte_carlo_default (u : ℕ → ℝ) : Except PyError ℝ :=
  integral_monte_carlo u 100

/-- The value integral_monte_carlo produces on its successful path. -/
def estimate (u : ℕ → ℝ) (N : ℤ) : ℝ :=
  ((samples u N).map f).sum / (N : ℝ)

/-- The sweep loop of the first example: diferencias = np.ones(n_intentos),
then for each i in range(n_intentos) the entry i is overwritten with
np.abs((a-b)/a) where b is the estimate at sample count puntos[i].
Each trial i uses its own fresh entropy stream U i; every sample count is
positive, so the sampler's error branch is unreachable (this is proved,
not assumed, in the sweep theorem). -/
def diferencias (U : ℕ → ℕ → ℝ) : List ℝ :=
  (List.range n_intentos).foldl
    (fun d i =>
      d.set i (relative_error integral_analitica (estimate (U i) (puntos.getD i 0))))
    (List.replicate n_intentos 1)

end UniformExample

namespace ExponentialExample

/-- Second example's integrand: f(x) = np.sin(x). -/
def f (x : ℝ) : ℝ := Real.sin x

/-- Second example's closed form: 0.5. -/
def integral_analitica : ℝ := 0.5

/-- Inverse CDF of the Exponential(rate 1) distribution, the standard
model of an exponential draw from a uniform variate v. -/
def exponential_inv_cdf (v : ℝ) : ℝ := -Real.log (1 - v)

/-- The N Exponential(1) draws obtained from the entropy stream u by the
inverse-CDF transform. -/
def samples (u : ℕ → ℝ) (N : ℤ) : List ℝ :=
  (List.range N.toNat).map (fun i => exponential_inv_cdf (u i))

/-- np.random.exponential(size=N): raises ValueError for N < 0, otherwise
returns an array of N Exponential(1) draws (empty for N = 0). -/
def random_exponential (u : ℕ → ℝ) (N : ℤ) : Except PyError (List ℝ) :=
  if N < 0 then Except.error PyError.valueError
  else Except.ok (samples u N)

/-- integral_monte_carlo(N): x = np.random.exponential(size=N);
return np.sum(f(x))/N. -/
def integral_monte_carlo (u : ℕ → ℝ) (N : ℤ) : Except PyError ℝ :=
  (random_exponential u N).map (fun x => ((x.map f).sum) / (N : ℝ))

/-- integral_monte_carlo() with the declared default N=100. -/
def integral_monte_carlo_default (u : ℕ → ℝ) : Except PyError ℝ :=
  integral_monte_carlo u 100

/-- The value integral_monte_carlo produces on its successful path. -/
def estimate (u : ℕ → ℝ) (N : ℤ) : ℝ :=
  ((samples u N).map f).sum / (N : ℝ)

/-- The sweep loop of the second example (same shape as the first). -/
def diferencias (U : ℕ → ℕ → ℝ) : List ℝ :=
  (List.range n_intentos).foldl
    (fun d i =>
      d.set i (relative_error integral_analitica (estimate (U i) (puntos.getD i 0))))
    (List.replicate n_intentos 1)

end ExponentialExample

/-- Modelled from the spec: the notebook consumes numpy's global
pseudo-random generator and never seeds it; the generator itself is not
part of the repository.  The spec's determinism note states that
reproducible runs must inject a fixed seed into the random source, so the
source is modelled as a deterministic state machine: seeding sets the
state from the seed and each draw applies a pure transition (a linear
congruential step stands in for the concrete generator). -/
def rng_next (s : ℕ) : ℕ :=
  (6364136223846793005 * s + 1442695040888963407) % 2 ^ 64

/-- The entropy stream determined by a fixed seed: the i-th draw is a
value in [0,1) computed from the (i+1)-fold iterate of the generator
transition on the seed state. -/
def rng_stream (seed : ℕ) : ℕ → ℝ :=
  fun i => ((rng_next^[i + 1] seed) % 2 ^ 53 : ℕ) / (2 : ℝ) ^ 53

section Helpers

/-- Truncating a rational power of ten: if n^b ≤ 10^a < (n+1)^b then
np_int of 10^(a/b) is n. -/
lemma np_int_ten_rpow (x : ℝ) (a b n : ℕ) (hb : 0 < b) (hx : x = (a : ℝ) / (b : ℝ))
    (h1 : n ^ b ≤ 10 ^ a) (h2 : 10 ^ a < (n + 1) ^ b) :
    np_int ((10 : ℝ) ^ x) = (n : ℤ) := by
  have hpos : (0 : ℝ) < (10 : ℝ) ^ x := Real.rpow_pos_of_pos (by norm_num) x
  have hbR : ((b : ℝ)) ≠ 0 := Nat.cast_ne_zero.mpr hb.ne'
  have hpow : ((10 : ℝ) ^ x) ^ b = (10 : ℝ) ^ (a : ℕ) := by
    rw [← Real.rpow_natCast ((10 : ℝ) ^ x) b, ← Real.rpow_mul (by norm_num : (0:ℝ) ≤ 10),
      hx, div_mul_cancel₀ _ hbR, Real.rpow_natCast]
  have h1R : ((n : ℝ)) ^ b ≤ ((10 : ℝ) ^ x) ^ b := by
    rw [hpow]; exact_mod_cast h1
  have h2R : ((10 : ℝ) ^ x) ^ b < ((n : ℝ) + 1) ^ b := by
    rw [hpow]; exact_mod_cast h2
  have hlow : (n : ℝ) ≤ (10 : ℝ) ^ x :=
    le_of_pow_le_pow_left₀ hb.ne' hpos.le h1R
  have hhigh : (10 : ℝ) ^ x < (n : ℝ) + 1 :=
    lt_of_pow_lt_pow_left₀ b (by positivity) h2R
  unfold np_int
  rw [if_pos hpos.le, Int.floor_eq_iff]
  constructor
  · exact_mod_cast hlow
  · push_cast
    exact hhigh

/-- The concrete logspace exponents of the sweep: element k of
np.logspace 1 5 10 is 10^((9+4k)/9). -/
lemma np_logspace_1_5_10 (k : ℕ) :
    np_logspace 1 5 10 k = (10 : ℝ) ^ (((9 + 4 * k : ℕ) : ℝ) / ((9 : ℕ) : ℝ)) := by
  unfold np_logspace
  congr 1
  push_cast
  ring

/-- Evaluation of the sweep's sample counts: np.int_ truncates each
logspace value toward zero. -/
lemma puntos_eq :
    puntos = [10, 27, 77, 215, 599, 1668, 4641, 12915, 35938, 100000] := by
  have h : List.range n_intentos = [0, 1, 2, 3, 4, 5, 6, 7, 8, 9] := by decide
  unfold puntos
  rw [h]
  simp only [List.map]
  have e0 : np_int (np_logspace 1 5 n_intentos 0) = (10 : ℤ) := by
    rw [show n_intentos = 10 from rfl, np_logspace_1_5_10]
    exact np_int_ten_rpow _ 9 9 10 (by norm_num) (by push_cast; norm_num)
      (by norm_num) (by norm_num)
  have e1 : np_int (np_logspace 1 5 n_intentos 1) = (27 : ℤ) := by
    rw [show n_intentos = 10 from rfl, np_logspace_1_5_10]
    exact np_int_ten_rpow _ 13 9 27 (by norm_num) (by push_cast; norm_num)
      (by norm_num) (by norm_num)
  have e2 : np_int (np_logspace 1 5 n_intentos 2) = (77 : ℤ) := by
    rw [show n_intentos = 10 from rfl, np_logspace_1_5_10]
    exact np_int_ten_rpow _ 17 9 77 (by norm_num) (by push_cast; norm_num)
      (by norm_num) (by norm_num)
  have e3 : np_int (np_logspace 1 5 n_intentos 3) = (215 : ℤ) := by
    rw [show n_intentos = 10 from rfl, np_logspace_1_5_10]
    exact np_int_ten_rpow _ 21 9 215 (by norm_num) (by push_cast; norm_num)
      (by norm_num) (by norm_num)
  have e4 : np_int (np_logspace 1 5 n_intentos 4) = (599 : ℤ) := by
    rw [show n_intentos = 10 from rfl, np_logspace_1_5_10]
    exact np_int_ten_rpow _ 25 9 599 (by norm_num) (by push_cast; norm_num)
      (by norm_num) (by norm_num)
  have e5 : np_int (np_logspace 1 5 n_intentos 5) = (1668 : ℤ) := by
    rw [show n_intentos = 10 from rfl, np_logspace_1_5_10]
    exact np_int_ten_rpow _ 29 9 1668 (by norm_num) (by push_cast; norm_num)
      (by norm_num) (by norm_num)
  have e6 : np_int (np_logspace 1 5 n_intentos 6) = (4641 : ℤ) := by
    rw [show n_intentos = 10 from rfl, np_logspace_1_5_10]
    exact np_int_ten_rpow _ 33 9 4641 (by norm_num) (by push_cast; norm_num)
      (by norm_num) (by norm_num)
  have e7 : np_int (np_logspace 1 5 n_intentos 7) = (12915 : ℤ) := by
    rw [show n_intentos = 10 from rfl, np_logspace_1_5_10]
    exact np_int_ten_rpow _ 37 9 12915 (by norm_num) (by push_cast; norm_num)
      (by norm_num) (by norm_num)
  have e8 : np_int (np_logspace 1 5 n_intentos 8) = (35938 : ℤ) := by
    rw [show n_intentos = 10 from rfl, np_logspace_1_5_10]
    exact np_int_ten_rpow _ 41 9 35938 (by norm_num) (by push_cast; norm_num)
      (by norm_num) (by norm_num)
  have e9 : np_int (np_logspace 1 5 n_intentos 9) = (100000 : ℤ) := by
    rw [show n_intentos = 10 from rfl, np_logspace_1_5_10]
    exact np_int_ten_rpow _ 45 9 100000 (by norm_num) (by push_cast; norm_num)
      (by norm_num) (by norm_num)
  rw [e0, e1, e2, e3, e4, e5, e6, e7, e8, e9]

/-- The successful path of the first example's estimator: for a
non-negative sample count the sampler cannot fail and the estimator
returns the estimate. -/
lemma uniform_integral_monte_carlo_ok (u : ℕ → ℝ) (N : ℤ) (h : ¬ N < 0) :
    UniformExample.integral_monte_carlo u N = Except.ok (UniformExample.estimate u N) := by
  unfold UniformExample.integral_monte_carlo UniformExample.random_random
  rw [if_neg h]
  rfl

/-- The successful path of the second example's estimator. -/
lemma exponential_integral_monte_carlo_ok (u : ℕ → ℝ) (N : ℤ) (h : ¬ N < 0) :
    ExponentialExample.integral_monte_carlo u N =
      Except.ok (ExponentialExample.estimate u N) := by
  unfold ExponentialExample.integral_monte_carlo ExponentialExample.random_exponential
  rw [if_neg h]
  rfl

/-- Rounding (rather than truncating) the second logspace value of the
sweep gives 28, since 27.5 ≤ 10^(13/9) < 28.5. -/
lemma round_np_logspace_one : round (np_logspace 1 5 n_intentos 1) = 28 := by
  rw [show n_intentos = 10 from rfl, np_logspace_1_5_10]
  rw [show (((9 + 4 * 1 : ℕ) : ℝ) / ((9 : ℕ) : ℝ)) = (13 : ℝ) / 9 by push_cast; norm_num]
  have hpos : (0 : ℝ) < (10 : ℝ) ^ ((13 : ℝ) / 9) := Real.rpow_pos_of_pos (by norm_num) _
  have hpow : ((10 : ℝ) ^ ((13 : ℝ) / 9)) ^ (9 : ℕ) = (10 : ℝ) ^ (13 : ℕ) := by
    rw [← Real.rpow_natCast ((10 : ℝ) ^ ((13 : ℝ) / 9)) 9,
      ← Real.rpow_mul (by norm_num : (0 : ℝ) ≤ 10),
      show (13 : ℝ) / 9 * ((9 : ℕ) : ℝ) = ((13 : ℕ) : ℝ) by push_cast; ring,
      Real.rpow_natCast]
  have hlow : (55 : ℝ) / 2 ≤ (10 : ℝ) ^ ((13 : ℝ) / 9) :=
    le_of_pow_le_pow_left₀ (by norm_num : (9 : ℕ) ≠ 0) hpos.le
      (by rw [hpow]; norm_num)
  have hhigh : (10 : ℝ) ^ ((13 : ℝ) / 9) < (57 : ℝ) / 2 :=
    lt_of_pow_lt_pow_left₀ 9 (by norm_num) (by rw [hpow]; norm_num)
  rw [round_eq, Int.floor_eq_iff]
  constructor
  · push_cast
    linarith
  · push_cast
    linarith

/-- Entry i of the first example's sweep result is the relative-error
expression at sample count puntos[i]. -/
lemma UniformExample.diferencias_getD (U : ℕ → ℕ → ℝ) (i : ℕ) (hi : i < n_intentos) :
    (UniformExample.diferencias U).getD i 0 =
      relative_error UniformExample.integral_analitica
        (UniformExample.estimate (U i) (puntos.getD i 0)) := by
  have hi' : i < 10 := hi
  interval_cases i <;> rfl

end Helpers

/-- C1: for the uniform case, the estimator at a positive sample count N
returns exactly (1/N) times the sum of f over the N uniform draws, and
that value is the arithmetic mean of f over the sample sequence. -/
theorem uniform_estimator_is_sample_mean (u : ℕ → ℝ) (N : ℤ) (h : 0 < N) :
    UniformExample.integral_monte_carlo u N =
      Except.ok ((1 / (N : ℝ)) *
        ((UniformExample.samples u N).map UniformExample.f).sum) ∧
    (1 / (N : ℝ)) * ((UniformExample.samples u N).map UniformExample.f).sum =
      ((UniformExample.samples u N).map UniformExample.f).sum /
        (((UniformExample.samples u N).map UniformExample.f).length : ℝ) := by
  have hlen : ((UniformExample.samples u N).map UniformExample.f).length = N.toNat := by
    simp [UniformExample.samples]
  constructor
  · rw [uniform_integral_monte_carlo_ok u N (not_lt.mpr h.le)]
    unfold UniformExample.estimate
    rw [one_div_mul_eq_div]
  · rw [hlen, one_div_mul_eq_div]
    congr 1
    exact_mod_cast (Int.toNat_of_nonneg h.le).symm

/-- Witness for C1 at N = 2 and the all-zero sample stream. -/
theorem uniform_estimator_is_sample_mean_witness :
    (0 : ℤ) < 2 ∧
    (UniformExample.integral_monte_carlo (fun _ => 0) 2 =
      Except.ok ((1 / ((2 : ℤ) : ℝ)) *
        ((UniformExample.samples (fun _ => 0) 2).map UniformExample.f).sum) ∧
    (1 / ((2 : ℤ) : ℝ)) *
        ((UniformExample.samples (fun _ => 0) 2).map UniformExample.f).sum =
      ((UniformExample.samples (fun _ => 0) 2).map UniformExample.f).sum /
        (((UniformExample.samples (fun _ => 0) 2).map UniformExample.f).length : ℝ)) :=
  ⟨by norm_num, uniform_estimator_is_sample_mean (fun _ => 0) 2 (by norm_num)⟩

/-- C2: for the importance-sampling case, the estimator at a positive
sample count N returns exactly (1/N) times the sum of f over the N
Exponential(1) draws — the plain sample mean, with no reweighting by the
density applied to any sample. -/
theorem exponential_estimator_is_plain_mean (u : ℕ → ℝ) (N : ℤ) (h : 0 < N) :
    ExponentialExample.integral_monte_carlo u N =
      Except.ok ((1 / (N : ℝ)) *
        ((ExponentialExample.samples u N).map ExponentialExample.f).sum) ∧
    (1 / (N : ℝ)) * ((ExponentialExample.samples u N).map ExponentialExample.f).sum =
      ((ExponentialExample.samples u N).map ExponentialExample.f).sum /
        (((ExponentialExample.samples u N).map ExponentialExample.f).length : ℝ) := by
  have hlen : ((ExponentialExample.samples u N).map ExponentialExample.f).length
      = N.toNat := by
    simp [ExponentialExample.samples]
  constructor
  · rw [exponential_integral_monte_carlo_ok u N (not_lt.mpr h.le)]
    unfold ExponentialExample.estimate
    rw [one_div_mul_eq_div]
  · rw [hlen, one_div_mul_eq_div]
    congr 1
    exact_mod_cast (Int.toNat_of_nonneg h.le).symm

/-- Witness for C2 at N = 3 and the all-zero entropy stream. -/
theorem exponential_estimator_is_plain_mean_witness :
    (0 : ℤ) < 3 ∧
    (ExponentialExample.integral_monte_carlo (fun _ => 0) 3 =
      Except.ok ((1 / ((3 : ℤ) : ℝ)) *
        ((ExponentialExample.samples (fun _ => 0) 3).map ExponentialExample.f).sum) ∧
    (1 / ((3 : ℤ) : ℝ)) *
        ((ExponentialExample.samples (fun _ => 0) 3).map ExponentialExample.f).sum =
      ((ExponentialExample.samples (fun _ => 0) 3).map ExponentialExample.f).sum /
        (((ExponentialExample.samples (fun _ => 0) 3).map
            ExponentialExample.f).length : ℝ)) :=
  ⟨by norm_num, exponential_estimator_is_plain_mean (fun _ => 0) 3 (by norm_num)⟩

/-- C3 (counterexample): the claim says every element of puntos is the
nearest integer to the corresponding logspace value, but element 1 is 27
while the nearest integer to logspace(1,5,10)[1] = 10^(13/9) ≈ 27.83 is
28 — np.int_ truncates instead of rounding. -/
theorem puntos_not_nearest_integer :
    puntos.getD 1 0 ≠ round (np_logspace 1 5 n_intentos 1) := by
  have h27 : puntos.getD 1 0 = 27 := by rw [puntos_eq]; rfl
  rw [h27, round_np_logspace_one]
  decide

/-- C3 (amended): each element of puntos is the corresponding value of
logspace(1,5,10) truncated toward zero (np.int_), giving the concrete
sample counts below; all are at least 1. -/
theorem puntos_truncated_values :
    puntos = [10, 27, 77, 215, 599, 1668, 4641, 12915, 35938, 100000] :=
  puntos_eq

/-- C4 (counterexample): at N = 0 the estimator does not fail: the
sampler accepts a zero size and the estimator silently returns the
indeterminate sum([])/0 (NaN in IEEE floats, 0 under the embedding's
total real division) instead of raising an InvalidArgument condition. -/
theorem estimator_at_zero_N_returns_ok :
    UniformExample.integral_monte_carlo (fun _ => 0) 0 = Except.ok 0 := by
  rw [uniform_integral_monte_carlo_ok (fun _ => 0) 0 (by norm_num)]
  norm_num [UniformExample.estimate, UniformExample.samples]

/-- C4 (amended): only a strictly negative sample count makes the
estimator fail (numpy's ValueError for a negative array size, an
InvalidArgument-style condition); N = 0 is accepted silently, see the
counterexample. -/
theorem negative_N_raises_valueError (u : ℕ → ℝ) (N : ℤ) (h : N < 0) :
    UniformExample.integral_monte_carlo u N = Except.error PyError.valueError ∧
    ExponentialExample.integral_monte_carlo u N = Except.error PyError.valueError := by
  constructor
  · unfold UniformExample.integral_monte_carlo UniformExample.random_random
    rw [if_pos h]
    rfl
  · unfold ExponentialExample.integral_monte_carlo ExponentialExample.random_exponential
    rw [if_pos h]
    rfl

/-- Witness for the amended C4 at N = -1. -/
theorem negative_N_raises_valueError_witness :
    (-1 : ℤ) < 0 ∧
    (UniformExample.integral_monte_carlo (fun _ => 0) (-1) =
        Except.error PyError.valueError ∧
      ExponentialExample.integral_monte_carlo (fun _ => 0) (-1) =
        Except.error PyError.valueError) :=
  ⟨by norm_num, negative_N_raises_valueError (fun _ => 0) (-1) (by norm_num)⟩

/-- C6: the first example's convergence sweep has length n_intentos, and
for each index i below n_intentos the recorded value is
|reference - estimate_i| / |reference| where estimate_i is the value of
the one estimator invocation at sample count puntos[i] on trial i's fresh
samples (the invocation provably takes the successful path). -/
theorem diferencias_sweep_spec (U : ℕ → ℕ → ℝ) :
    (UniformExample.diferencias U).length = n_intentos ∧
    ∀ i, i < n_intentos →
      (UniformExample.diferencias U).getD i 0 =
        |UniformExample.integral_analitica -
            UniformExample.estimate (U i) (puntos.getD i 0)| /
          |UniformExample.integral_analitica| ∧
      UniformExample.integral_monte_carlo (U i) (puntos.getD i 0) =
        Except.ok (UniformExample.estimate (U i) (puntos.getD i 0)) := by
  constructor
  · rfl
  · intro i hi
    constructor
    · rw [UniformExample.diferencias_getD U i hi]
      unfold relative_error
      rw [abs_div]
    · apply uniform_integral_monte_carlo_ok
      have hi' : i < 10 := hi
      rw [puntos_eq]
      interval_cases i <;> decide

/-- Witness for C6 at index 0 of the all-zero entropy streams. -/
theorem diferencias_sweep_spec_witness :
    (UniformExample.diferencias (fun _ _ => 0)).length = n_intentos ∧
    (0 < n_intentos ∧
      ((UniformExample.diferencias (fun _ _ => 0)).getD 0 0 =
        |UniformExample.integral_analitica -
            UniformExample.estimate (fun _ => 0) (puntos.getD 0 0)| /
          |UniformExample.integral_analitica| ∧
      UniformExample.integral_monte_carlo (fun _ => 0) (puntos.getD 0 0) =
        Except.ok (UniformExample.estimate (fun _ => 0) (puntos.getD 0 0)))) :=
  ⟨(diferencias_sweep_spec (fun _ _ => 0)).1, by decide,
    (diferencias_sweep_spec (fun _ _ => 0)).2 0 (by decide)⟩

/-- C7: the generated sample counts are non-decreasing, the first one
equals round(10^1) = 10 and the last one equals round(10^5) = 100000. -/
theorem puntos_monotone_and_endpoints :
    List.Chain' (· ≤ ·) puntos ∧
    puntos.getD 0 0 = round ((10 : ℝ) ^ (1 : ℝ)) ∧
    puntos.getD (n_intentos - 1) 0 = round ((10 : ℝ) ^ (5 : ℝ)) := by
  refine ⟨?_, ?_, ?_⟩
  · rw [puntos_eq]
    norm_num [List.chain'_cons, List.chain'_singleton]
  · rw [puntos_eq, Real.rpow_one,
      show (10 : ℝ) = ((10 : ℤ) : ℝ) by norm_num, round_intCast]
    rfl
  · rw [puntos_eq, show (5 : ℝ) = ((5 : ℕ) : ℝ) by norm_num, Real.rpow_natCast,
      show ((10 : ℝ) ^ (5 : ℕ)) = ((100000 : ℤ) : ℝ) by norm_num, round_intCast]
    rfl

/-- C8 (counterexample): with a zero reference the recorded error is the
unguarded |(0 - b)/0|, which is not the absolute error |0 - b| (at
estimate b = 1 it is 0 under the embedding's total real division, and
NaN/inf in IEEE floats) — the code neither fails with a DegenerateReference
condition nor falls back to absolute error. -/
theorem relative_error_zero_reference_not_absolute :
    relative_error 0 1 ≠ |(0 : ℝ) - 1| := by
  unfold relative_error
  norm_num

/-- C8 (amended): the relative-error computation applies no guard for a
zero reference: it divides by the reference unconditionally, so a zero
reference neither raises an explicit condition nor yields the absolute
error (for any nonzero estimate); under the embedding's total real
division the recorded value is 0, where IEEE arithmetic gives NaN/inf. -/
theorem relative_error_zero_reference_unguarded (b : ℝ) :
    relative_error 0 b = 0 ∧ (b ≠ 0 → relative_error 0 b ≠ |0 - b|) := by
  unfold relative_error
  constructor
  · rw [div_zero, abs_zero]
  · intro hb
    rw [div_zero, abs_zero, zero_sub, abs_neg]
    exact fun hc => hb (abs_eq_zero.mp hc.symm)

/-- Witness for the amended C8 at estimate b = 1. -/
theorem relative_error_zero_reference_unguarded_witness :
    relative_error 0 1 = 0 ∧
    ((1 : ℝ) ≠ 0 ∧ relative_error 0 1 ≠ |(0 : ℝ) - 1|) :=
  ⟨(relative_error_zero_reference_unguarded 1).1, by norm_num,
    (relative_error_zero_reference_unguarded 1).2 (by norm_num)⟩

/-- C9: with the random source modelled as a deterministic state machine
seeded from a fixed seed, two runs with identical seed, sample count and
distribution produce identical sample sequences and identical estimates,
in both the uniform and the exponential example. -/
theorem fixed_seed_reproducibility (seed1 seed2 : ℕ) (N1 N2 : ℤ)
    (hseed : seed1 = seed2) (hN : N1 = N2) :
    UniformExample.samples (rng_stream seed1) N1 =
        UniformExample.samples (rng_stream seed2) N2 ∧
    UniformExample.integral_monte_carlo (rng_stream seed1) N1 =
        UniformExample.integral_monte_carlo (rng_stream seed2) N2 ∧
    ExponentialExample.samples (rng_stream seed1) N1 =
        ExponentialExample.samples (rng_stream seed2) N2 ∧
    ExponentialExample.integral_monte_carlo (rng_stream seed1) N1 =
        ExponentialExample.integral_monte_carlo (rng_stream seed2) N2 := by
  subst hseed
  subst hN
  exact ⟨rfl, rfl, rfl, rfl⟩

/-- Witness for C9 at seed 12345 and N = 7. -/
theorem fixed_seed_reproducibility_witness :
    UniformExample.samples (rng_stream 12345) 7 =
        UniformExample.samples (rng_stream 12345) 7 ∧
    UniformExample.integral_monte_carlo (rng_stream 12345) 7 =
        UniformExample.integral_monte_carlo (rng_stream 12345) 7 ∧
    ExponentialExample.samples (rng_stream 12345) 7 =
        ExponentialExample.samples (rng_stream 12345) 7 ∧
    ExponentialExample.integral_monte_carlo (rng_stream 12345) 7 =
        ExponentialExample.integral_monte_carlo (rng_stream 12345) 7 :=
  fixed_seed_reproducibility 12345 12345 7 7 rfl rfl

/-- C10: calling either example's estimator with no sample-count argument
is the same as calling it with the declared default N = 100. -/
theorem default_N_is_100 (u : ℕ → ℝ) :
    UniformExample.integral_monte_carlo_default u =
        UniformExample.integral_monte_carlo u 100 ∧
    ExponentialExample.integral_monte_carlo_default u =
        ExponentialExample.integral_monte_carlo u 100 :=
  ⟨rfl, rfl⟩

end
